import Mathlib

/-!
Verification of the beam-analysis core of the CE-app repository.

The embedded code comes from three Python sources:
* `src/app.py` — class `SimpleBeam` (`solve_reactions`,
  `calculate_internal_forces`) and its point-load list;
* `src/civil_learning_platform/pages/02_Level_2_均佈載重.py` — class
  `BeamLevel2` (`set_loads`, `solve_analysis`) with one point load and
  one uniformly distributed load (UDL);
* `src/civil_learning_platform/pages/03_Level_3_挑戰模式.py` — the quiz
  page (`solve_beam`, `plot_answer`, the exam-data session state and the
  tolerance check on submitted reactions).

Real numbers of the Python code (floats) are modelled as rationals `ℚ`,
so all arithmetic identities hold exactly; `np.linspace(0, L, 500)` is
modelled as the map `i ↦ L * i / 499` on `i < 500`.
-/

/-- One entry of `SimpleBeam.loads`: the dict `{"type": "point", "P": P, "x": x}`
of `app.py` (the `"type"` tag is constant and omitted). -/
structure PointLoad where
  P : ℚ
  x : ℚ
deriving DecidableEq

/-- The `SimpleBeam` object of `app.py`: a span `length` and a list of
point loads accumulated by `add_point_load`. -/
structure SimpleBeam where
  length : ℚ
  loads : List PointLoad
deriving DecidableEq

/-- `SimpleBeam.add_point_load`: appends `{"P": P, "x": x}` to `self.loads`. -/
def SimpleBeam.add_point_load (b : SimpleBeam) (P x : ℚ) : SimpleBeam :=
  { b with loads := b.loads ++ [⟨P, x⟩] }

/-- The accumulator `sum_moment_A` of `SimpleBeam.solve_reactions`:
`sum_moment_A += load["P"] * load["x"]` over `self.loads`, starting at `0`. -/
def SimpleBeam.sum_moment_A (b : SimpleBeam) : ℚ :=
  b.loads.foldl (fun acc l => acc + l.P * l.x) 0

/-- The accumulator `total_load` of `SimpleBeam.solve_reactions`:
`total_load += load["P"]` over `self.loads`, starting at `0`. -/
def SimpleBeam.total_load (b : SimpleBeam) : ℚ :=
  b.loads.foldl (fun acc l => acc + l.P) 0

/-- `SimpleBeam.solve_reactions` of `app.py`:
`rb = sum_moment_A / self.length; ra = total_load - rb; return ra, rb`.
The Python body divides by `self.length` with no guard on its sign. -/
def SimpleBeam.solve_reactions (b : SimpleBeam) : ℚ × ℚ :=
  let rb := b.sum_moment_A / b.length
  let ra := b.total_load - rb
  (ra, rb)

/-- Sample `i` of `np.linspace(0, L, 500)`: 500 equally spaced points
from `0` to `L` inclusive, i.e. `L * i / 499` for `i = 0, …, 499`. -/
def linspace500 (L : ℚ) (i : ℕ) : ℚ :=
  L * i / 499

/-- The body of the sampling loop in `SimpleBeam.calculate_internal_forces`
at one cut position `x`: start from `V = ra`, `M = ra * x`, then for each
load with `x > load["x"]` subtract `P` from `V` and `P * (x - load["x"])`
from `M`. Returns the pair `(V, M)`. -/
def SimpleBeam.sectionVM (b : SimpleBeam) (ra x : ℚ) : ℚ × ℚ :=
  b.loads.foldl
    (fun vm l => if x > l.x then (vm.1 - l.P, vm.2 - l.P * (x - l.x)) else vm)
    (ra, ra * x)

/-- `SimpleBeam.calculate_internal_forces`: the triple
`(x_coords, shear_forces, bending_moments)` over the 500 linspace samples.
The parameter `rb` is accepted but, as in the Python body, unused. -/
def SimpleBeam.calculate_internal_forces (b : SimpleBeam) (ra rb : ℚ) :
    List ℚ × List ℚ × List ℚ :=
  let xs := (List.range 500).map (linspace500 b.length)
  (xs, xs.map (fun x => (b.sectionVM ra x).1), xs.map (fun x => (b.sectionVM ra x).2))

/-- The UDL dict `{"w": w, "start": start, "end": end}` of `BeamLevel2`
(`endp` models the key `"end"`, a reserved word in Lean). -/
structure UDL where
  w : ℚ
  start : ℚ
  endp : ℚ
deriving DecidableEq

/-- The `BeamLevel2` object of the Level-2 page: a span plus exactly one
point-load record and one UDL record (initialised to zero by `__init__`). -/
structure BeamLevel2 where
  length : ℚ
  point_load : PointLoad
  udl : UDL
deriving DecidableEq

/-- `BeamLevel2.__init__(length)`: zero loads. -/
def BeamLevel2.init (length : ℚ) : BeamLevel2 :=
  { length := length, point_load := ⟨0, 0⟩, udl := ⟨0, 0, 0⟩ }

/-- `BeamLevel2.set_loads`: overwrites both the point-load dict and the
UDL dict with the given arguments. -/
def BeamLevel2.set_loads (b : BeamLevel2) (P x_p w w_start w_end : ℚ) : BeamLevel2 :=
  { b with point_load := ⟨P, x_p⟩, udl := ⟨w, w_start, w_end⟩ }

/-- Part A of `BeamLevel2.solve_analysis` (reaction computation):
`moment_from_point = P * x`; `udl_total_force = w * (end - start)`;
`udl_center = (start + end) / 2`; `moment_from_udl = F * c`;
`rb = (moment_from_point + moment_from_udl) / L`; `ra = (P + F) - rb`. -/
def BeamLevel2.reactions (b : BeamLevel2) : ℚ × ℚ :=
  let moment_from_point := b.point_load.P * b.point_load.x
  let udl_total_force := b.udl.w * (b.udl.endp - b.udl.start)
  let udl_center := (b.udl.start + b.udl.endp) / 2
  let moment_from_udl := udl_total_force * udl_center
  let rb := (moment_from_point + moment_from_udl) / b.length
  let ra := (b.point_load.P + udl_total_force) - rb
  (ra, rb)

/-- The body of the sampling loop in part B of `BeamLevel2.solve_analysis`
at one cut position `x`: start from `V = ra`, `M = ra * x`; subtract the
point load when `x > point_load["x"]`; then, when `x > udl["start"]`,
compute `cover_len = min(x, udl["end"]) - udl["start"]` and, if it is
positive, subtract `force_segment = w * cover_len` from `V` and
`force_segment * (x - (start + cover_len / 2))` from `M`. -/
def BeamLevel2.sectionVM (b : BeamLevel2) (ra x : ℚ) : ℚ × ℚ :=
  let V := ra
  let M := ra * x
  let VM :=
    if x > b.point_load.x then
      (V - b.point_load.P, M - b.point_load.P * (x - b.point_load.x))
    else (V, M)
  if x > b.udl.start then
    let cover_len := min x b.udl.endp - b.udl.start
    if cover_len > 0 then
      let force_segment := b.udl.w * cover_len
      let moment_arm := x - (b.udl.start + cover_len / 2)
      (VM.1 - force_segment, VM.2 - force_segment * moment_arm)
    else VM
  else VM

/-- `BeamLevel2.solve_analysis`: reactions followed by the sampled shear
and moment lists over the 500 linspace points; returns
`(ra, rb, x_vals, V_vals, M_vals)`. -/
def BeamLevel2.solve_analysis (b : BeamLevel2) :
    ℚ × ℚ × List ℚ × List ℚ × List ℚ :=
  let ra := (b.reactions).1
  let rb := (b.reactions).2
  let xs := (List.range 500).map (linspace500 b.length)
  (ra, rb, xs, xs.map (fun x => (b.sectionVM ra x).1), xs.map (fun x => (b.sectionVM ra x).2))

/-- `solve_beam` of the Level-3 quiz page:
`rb = P * x / L; ra = P - rb; return ra, rb` — again no guard on `L`. -/
def solve_beam (L P x : ℚ) : ℚ × ℚ :=
  let rb := P * x / L
  let ra := P - rb
  (ra, rb)

/-- Shear at sample `val` in the loop of `plot_answer` (Level-3 page):
`V = ra`, then `V -= P` when `val > x`. -/
def plot_answer_V (P x ra val : ℚ) : ℚ :=
  if val > x then ra - P else ra

/-- Moment at sample `val` in the loop of `plot_answer` (Level-3 page):
`M = ra * val`, then `M -= P * (val - x)` when `val > x`. -/
def plot_answer_M (P x ra val : ℚ) : ℚ :=
  if val > x then ra * val - P * (val - x) else ra * val

/-! ### Helper lemmas on the fold-based accumulators -/

/-- Folding `acc + f l` over a list equals the initial value plus the sum of
the mapped list. -/
lemma foldl_add_eq_sum {α : Type} (f : α → ℚ) (a : ℚ) (xs : List α) :
    xs.foldl (fun acc l => acc + f l) a = a + (xs.map f).sum := by
  induction xs generalizing a with
  | nil => simp
  | cons y ys ih => simp [ih, add_assoc]

lemma sum_moment_A_eq (b : SimpleBeam) :
    b.sum_moment_A = (b.loads.map (fun l => l.P * l.x)).sum := by
  unfold SimpleBeam.sum_moment_A
  rw [foldl_add_eq_sum]
  ring

lemma total_load_eq (b : SimpleBeam) :
    b.total_load = (b.loads.map (fun l => l.P)).sum := by
  unfold SimpleBeam.total_load
  rw [foldl_add_eq_sum]
  ring

/-- Distribute the moment arm over the load sum. -/
lemma sum_map_moment (loads : List PointLoad) (p : ℚ) :
    (loads.map (fun l => l.P * (l.x - p))).sum
      = (loads.map (fun l => l.P * l.x)).sum - p * (loads.map (fun l => l.P)).sum := by
  induction loads with
  | nil => simp
  | cons y ys ih => simp [ih]; ring

/-! ### Spec-side definitions (for refinement-style claims)

These are written from the spec text, to be compared with the
source-derived definitions above. -/

/-- Net moment about an arbitrary point `p` of all the loads of a
`SimpleBeam` together with both reactions (downward loads count positive,
upward reactions negative; lever arm is signed position minus `p`). -/
def SimpleBeam.momentAbout (b : SimpleBeam) (ra rb p : ℚ) : ℚ :=
  (b.loads.map (fun l => l.P * (l.x - p))).sum
    - ra * (0 - p) - rb * (b.length - p)

/-- Net moment about an arbitrary point `p` of the two loads of a
`BeamLevel2` (the UDL taken as its resultant at the segment centroid)
together with both reactions. -/
def BeamLevel2.momentAbout (b : BeamLevel2) (ra rb p : ℚ) : ℚ :=
  b.point_load.P * (b.point_load.x - p)
    + (b.udl.w * (b.udl.endp - b.udl.start)) * ((b.udl.start + b.udl.endp) / 2 - p)
    - ra * (0 - p) - rb * (b.length - p)

/-- Total downward load on a `BeamLevel2`: the point load plus the UDL
resultant. -/
def BeamLevel2.totalLoad (b : BeamLevel2) : ℚ :=
  b.point_load.P + b.udl.w * (b.udl.endp - b.udl.start)

/-! ### C1 -/

/-- **C1** (code evaluated at the failing input): neither reaction solver
guards against a non-positive span. At `L = -1` with a `100 kN` load at
`x = 5`, `solve_beam` silently returns `(600, -500)`, and
`SimpleBeam.solve_reactions` on the same beam returns the same pair —
no `InvalidGeometry` failure occurs and a (meaningless) result is
produced. (At `L = 0` the Python code raises a bare `ZeroDivisionError`,
again not an `InvalidGeometry` error.) -/
theorem solve_reactions_no_invalid_geometry_guard :
    solve_beam (-1) 100 5 = (600, -500) ∧
    (SimpleBeam.mk (-1) [⟨100, 5⟩]).solve_reactions = (600, -500) := by
  constructor
  · norm_num [solve_beam]
  · norm_num [SimpleBeam.solve_reactions, SimpleBeam.sum_moment_A,
      SimpleBeam.total_load]

/-! ### C2 -/

/-- **C2**: for every beam with positive span and any load set, the
reactions returned by the equilibrium solvers satisfy force balance
(`Ra + Rb` equals the total downward load) and moment balance (the net
moment about every point `p` vanishes) — exactly, in the rational model.
Stated for `SimpleBeam.solve_reactions` with an arbitrary point-load
list, and for `BeamLevel2.reactions` with its point load and UDL. -/
theorem solve_reactions_equilibrium (b : SimpleBeam) (b2 : BeamLevel2)
    (hL : 0 < b.length) (hL2 : 0 < b2.length) :
    ((b.solve_reactions).1 + (b.solve_reactions).2 = b.total_load ∧
      ∀ p : ℚ, b.momentAbout (b.solve_reactions).1 (b.solve_reactions).2 p = 0) ∧
    ((b2.reactions).1 + (b2.reactions).2 = b2.totalLoad ∧
      ∀ p : ℚ, b2.momentAbout (b2.reactions).1 (b2.reactions).2 p = 0) := by
  refine ⟨⟨?_, ?_⟩, ⟨?_, ?_⟩⟩
  · simp [SimpleBeam.solve_reactions]
  · intro p
    unfold SimpleBeam.momentAbout SimpleBeam.solve_reactions
    rw [sum_map_moment, sum_moment_A_eq, total_load_eq]
    have hne : b.length ≠ 0 := ne_of_gt hL
    field_simp
    ring
  · simp [BeamLevel2.reactions, BeamLevel2.totalLoad]
  · intro p
    unfold BeamLevel2.momentAbout BeamLevel2.reactions
    have hne : b2.length ≠ 0 := ne_of_gt hL2
    field_simp
    ring

/-- Witness for C2 at `L = 10`, a single `100 kN` load at `x = 5` for
`SimpleBeam`, and `P = 50` at `5` with `w = 10` over `[0, 10]` for
`BeamLevel2`; the moment balance is sampled at `p = 3`. -/
theorem solve_reactions_equilibrium_witness :
    ((SimpleBeam.mk 10 [⟨100, 5⟩]).momentAbout
      ((SimpleBeam.mk 10 [⟨100, 5⟩]).solve_reactions).1
      ((SimpleBeam.mk 10 [⟨100, 5⟩]).solve_reactions).2 3 = 0) ∧
    ((BeamLevel2.mk 10 ⟨50, 5⟩ ⟨10, 0, 10⟩).reactions).1
      + ((BeamLevel2.mk 10 ⟨50, 5⟩ ⟨10, 0, 10⟩).reactions).2
      = (BeamLevel2.mk 10 ⟨50, 5⟩ ⟨10, 0, 10⟩).totalLoad := by
  have h := solve_reactions_equilibrium (SimpleBeam.mk 10 [⟨100, 5⟩])
    (BeamLevel2.mk 10 ⟨50, 5⟩ ⟨10, 0, 10⟩) (by norm_num) (by norm_num)
  exact ⟨h.1.2 3, h.2.1⟩

/-! ### C3 -/

/-- The check `is_correct_ra = abs(user_ra - true_ra) < 0.1` of the
Level-3 submit handler. -/
def is_correct_ra (user_ra true_ra : ℚ) : Prop :=
  |user_ra - true_ra| < 1 / 10

/-- The check `is_correct_rb = abs(user_rb - true_rb) < 0.1` of the
Level-3 submit handler. -/
def is_correct_rb (user_rb true_rb : ℚ) : Prop :=
  |user_rb - true_rb| < 1 / 10

/-- The overall verdict of the submit handler:
`if is_correct_ra and is_correct_rb`, with the truth `(true_ra, true_rb)`
computed by `solve_beam(current_L, current_P, current_x)`. -/
def answer_correct (L P x user_ra user_rb : ℚ) : Prop :=
  is_correct_ra user_ra (solve_beam L P x).1 ∧
  is_correct_rb user_rb (solve_beam L P x).2

instance (u t : ℚ) : Decidable (is_correct_ra u t) := by
  unfold is_correct_ra; infer_instance

instance (u t : ℚ) : Decidable (is_correct_rb u t) := by
  unfold is_correct_rb; infer_instance

/-- **C3**: each submitted value is judged independently against the
solver-computed truth with absolute tolerance `0.1`: a value strictly
within `0.1` of the truth passes, a value exactly `0.1001` off fails,
and the answer is marked correct exactly when both values are within
tolerance. -/
theorem quiz_tolerance (L P x ura urb : ℚ) :
    (|ura - (solve_beam L P x).1| < 1 / 10 → is_correct_ra ura (solve_beam L P x).1) ∧
    (|ura - (solve_beam L P x).1| = 1001 / 10000 → ¬ is_correct_ra ura (solve_beam L P x).1) ∧
    (|urb - (solve_beam L P x).2| < 1 / 10 → is_correct_rb urb (solve_beam L P x).2) ∧
    (|urb - (solve_beam L P x).2| = 1001 / 10000 → ¬ is_correct_rb urb (solve_beam L P x).2) ∧
    (answer_correct L P x ura urb ↔
      (is_correct_ra ura (solve_beam L P x).1 ∧ is_correct_rb urb (solve_beam L P x).2)) := by
  refine ⟨fun h => h, fun h => ?_, fun h => h, fun h => ?_, Iff.rfl⟩
  · unfold is_correct_ra
    rw [h]
    norm_num
  · unfold is_correct_rb
    rw [h]
    norm_num

/-- Witness for C3 on the problem `L=10, P=100, x=5` (truth `(50, 50)`):
`Ra = 50.05` passes, `Ra = 50.1001` fails, and `(50.05, 49.95)` is
marked correct. -/
theorem quiz_tolerance_witness :
    is_correct_ra (5005 / 100) ((solve_beam 10 100 5).1) ∧
    ¬ is_correct_ra (501001 / 10000) ((solve_beam 10 100 5).1) ∧
    answer_correct 10 100 5 (5005 / 100) (4995 / 100) := by
  have htra : (solve_beam 10 100 5).1 = 50 := by norm_num [solve_beam]
  have htrb : (solve_beam 10 100 5).2 = 50 := by norm_num [solve_beam]
  have h := quiz_tolerance 10 100 5 (5005 / 100) (4995 / 100)
  have h2 := quiz_tolerance 10 100 5 (501001 / 10000) (4995 / 100)
  refine ⟨h.1 ?_, h2.2.1 ?_, (h.2.2.2.2).mpr ⟨h.1 ?_, h.2.2.1 ?_⟩⟩
  · rw [htra, abs_lt]; constructor <;> norm_num
  · rw [htra]; norm_num
  · rw [htra, abs_lt]; constructor <;> norm_num
  · rw [htrb, abs_lt]; constructor <;> norm_num

/-! ### C4 -/

/-- Unrolling the section-method fold of `SimpleBeam.calculate_internal_forces`:
from any initial pair, the fold subtracts exactly the filtered sums. -/
lemma sectionVM_foldl (x : ℚ) (loads : List PointLoad) (v0 m0 : ℚ) :
    loads.foldl
      (fun vm l => if x > l.x then (vm.1 - l.P, vm.2 - l.P * (x - l.x)) else vm)
      (v0, m0)
    = (v0 - ((loads.filter (fun l => decide (l.x < x))).map (fun l => l.P)).sum,
       m0 - ((loads.filter (fun l => decide (l.x < x))).map
          (fun l => l.P * (x - l.x))).sum) := by
  induction loads generalizing v0 m0 with
  | nil => simp
  | cons y ys ih =>
    by_cases hy : y.x < x
    · simp only [List.foldl_cons, List.filter_cons, if_pos hy, decide_eq_true hy]
      rw [ih]
      simp
      constructor <;> ring
    · have hnot : ¬ x > y.x := hy
      simp only [List.foldl_cons, List.filter_cons, if_neg hnot,
        decide_eq_false hy]
      rw [ih]
      simp

/-- **C4**: at every cut position `x`, the section analyzer computes
`V = Ra - Σ P` and `M = Ra·x - Σ P·(x - xp)`, the sums ranging over
exactly those point loads whose position `xp` is strictly less than `x`;
in particular a load with `xp = x` is not subtracted (left-limit
convention at the discontinuity). -/
theorem section_forces_formula (b : SimpleBeam) (ra x : ℚ) :
    (b.sectionVM ra x).1
      = ra - ((b.loads.filter (fun l => decide (l.x < x))).map (fun l => l.P)).sum ∧
    (b.sectionVM ra x).2
      = ra * x - ((b.loads.filter (fun l => decide (l.x < x))).map
          (fun l => l.P * (x - l.x))).sum ∧
    ∀ l : PointLoad, l.x = x →
      (SimpleBeam.mk b.length [l]).sectionVM ra x = (ra, ra * x) := by
  refine ⟨?_, ?_, ?_⟩
  · unfold SimpleBeam.sectionVM
    rw [sectionVM_foldl]
  · unfold SimpleBeam.sectionVM
    rw [sectionVM_foldl]
  · intro l hl
    unfold SimpleBeam.sectionVM
    simp [hl]

/-- Witness for C4 on the beam `L=10` with loads `100@5` and `40@8`,
cut at `x = 6`: only the load at `5` is subtracted, and a load sitting
exactly at the cut is ignored. -/
theorem section_forces_formula_witness :
    ((SimpleBeam.mk 10 [⟨100, 5⟩, ⟨40, 8⟩]).sectionVM 50 6).1
      = 50 - (((SimpleBeam.mk 10 [⟨100, 5⟩, ⟨40, 8⟩]).loads.filter
          (fun l => decide (l.x < 6))).map (fun l => l.P)).sum ∧
    (SimpleBeam.mk 10 [(⟨40, 6⟩ : PointLoad)]).sectionVM 50 6 = (50, 50 * 6) := by
  exact ⟨(section_forces_formula (SimpleBeam.mk 10 [⟨100, 5⟩, ⟨40, 8⟩]) 50 6).1,
    (section_forces_formula (SimpleBeam.mk 10 [⟨40, 6⟩]) 50 6).2.2 ⟨40, 6⟩ rfl⟩

/-! ### C5 -/

/-- Modelled from the spec wording: the UDL equivalent point force
`F = w * (e - s)`. -/
def specUdlForce (w s e : ℚ) : ℚ :=
  w * (e - s)

/-- Modelled from the spec wording: the UDL segment centroid
`c = (s + e) / 2`. -/
def specUdlCentroid (s e : ℚ) : ℚ :=
  (s + e) / 2

/-- Modelled from the spec wording: the sum of all load moments about the
left support — the point load contributes `P * xp`, the UDL contributes
`F * c`. -/
def specLoadMomentSum (P xp w s e : ℚ) : ℚ :=
  P * xp + specUdlForce w s e * specUdlCentroid s e

/-- Modelled from the spec wording:
`Rb = (sum of all load moments about left support) / L`. -/
def specRb (L P xp w s e : ℚ) : ℚ :=
  specLoadMomentSum P xp w s e / L

/-- Modelled from the spec wording:
`Ra = (sum of all load magnitudes) - Rb`. -/
def specRa (L P xp w s e : ℚ) : ℚ :=
  (P + specUdlForce w s e) - specRb L P xp w s e

/-- **C5**: for a beam with positive span and a well-formed UDL
(`0 ≤ s ≤ e ≤ L`), `BeamLevel2.solve_analysis` computes its reactions
exactly as the spec describes: the UDL is replaced by its resultant
`w*(e-s)` at the centroid `(s+e)/2`, `Rb` is the total load moment about
the left support divided by `L`, and `Ra` is the total load minus `Rb`. -/
theorem udl_resultant_reactions (L P xp w s e : ℚ)
    (hL : 0 < L) (hs : 0 ≤ s) (hse : s ≤ e) (heL : e ≤ L) :
    (BeamLevel2.mk L ⟨P, xp⟩ ⟨w, s, e⟩).reactions
      = (specRa L P xp w s e, specRb L P xp w s e) := by
  simp [BeamLevel2.reactions, specRa, specRb, specLoadMomentSum,
    specUdlForce, specUdlCentroid]

/-- Witness for C5 at `L=10, P=50` at `xp=5`, `w=10` over `[0,10]`. -/
theorem udl_resultant_reactions_witness :
    (0:ℚ) < 10 ∧
    (BeamLevel2.mk 10 ⟨50, 5⟩ ⟨10, 0, 10⟩).reactions
      = (specRa 10 50 5 10 0 10, specRb 10 50 5 10 0 10) :=
  ⟨by norm_num, udl_resultant_reactions 10 50 5 10 0 10
    (by norm_num) (by norm_num) (by norm_num) (by norm_num)⟩

/-! ### C6 -/

/-- Pointwise form of the degenerate-UDL property: with `w = 0` or
`s = e`, the Level-2 section loop coincides with the pure point-load
section loop at every cut. -/
lemma degenerate_sectionVM (L P xp w s e ra xc : ℚ) (hdeg : w = 0 ∨ s = e) :
    (BeamLevel2.mk L ⟨P, xp⟩ ⟨w, s, e⟩).sectionVM ra xc
      = (SimpleBeam.mk L [⟨P, xp⟩]).sectionVM ra xc := by
  rcases hdeg with h | h
  · subst h
    simp only [BeamLevel2.sectionVM, SimpleBeam.sectionVM,
      List.foldl_cons, List.foldl_nil]
    split_ifs <;> simp
  · subst h
    simp only [BeamLevel2.sectionVM, SimpleBeam.sectionVM,
      List.foldl_cons, List.foldl_nil]
    have hcov : ¬ (min xc s - s > 0) := by
      simp only [gt_iff_lt, sub_pos, not_lt]
      exact min_le_right xc s
    rw [if_neg hcov, ite_self]

/-- Reaction part of the degenerate-UDL property. -/
lemma degenerate_reactions (L P xp w s e : ℚ) (hdeg : w = 0 ∨ s = e) :
    (BeamLevel2.mk L ⟨P, xp⟩ ⟨w, s, e⟩).reactions
      = (SimpleBeam.mk L [⟨P, xp⟩]).solve_reactions := by
  rcases hdeg with h | h <;>
    subst h <;>
    simp [BeamLevel2.reactions, SimpleBeam.solve_reactions,
      SimpleBeam.sum_moment_A, SimpleBeam.total_load]

/-- **C6**: a degenerate UDL (`w = 0` or `start = end`) contributes
nothing: the reactions and the whole sampled internal-force profile of
the Level-2 beam coincide with those of the pure point-load beam. In
the rational model every operation involved is total, and the only
divisions performed are by `L` (positive by hypothesis) and by the
constants `2` and `499`, so no division-by-zero (and hence no NaN)
arises. -/
theorem degenerate_udl_pure_point (L P xp w s e : ℚ)
    (hL : 0 < L) (hdeg : w = 0 ∨ s = e) :
    (BeamLevel2.mk L ⟨P, xp⟩ ⟨w, s, e⟩).reactions
        = (SimpleBeam.mk L [⟨P, xp⟩]).solve_reactions ∧
    (∀ xc : ℚ, (BeamLevel2.mk L ⟨P, xp⟩ ⟨w, s, e⟩).sectionVM
        ((SimpleBeam.mk L [⟨P, xp⟩]).solve_reactions).1 xc
        = (SimpleBeam.mk L [⟨P, xp⟩]).sectionVM
          ((SimpleBeam.mk L [⟨P, xp⟩]).solve_reactions).1 xc) ∧
    (BeamLevel2.mk L ⟨P, xp⟩ ⟨w, s, e⟩).solve_analysis
        = (((SimpleBeam.mk L [⟨P, xp⟩]).solve_reactions).1,
           ((SimpleBeam.mk L [⟨P, xp⟩]).solve_reactions).2,
           (SimpleBeam.mk L [⟨P, xp⟩]).calculate_internal_forces
             ((SimpleBeam.mk L [⟨P, xp⟩]).solve_reactions).1
             ((SimpleBeam.mk L [⟨P, xp⟩]).solve_reactions).2) := by
  have hre := degenerate_reactions L P xp w s e hdeg
  have hsec := fun xc => degenerate_sectionVM L P xp w s e
    ((SimpleBeam.mk L [⟨P, xp⟩]).solve_reactions).1 xc hdeg
  refine ⟨hre, hsec, ?_⟩
  unfold BeamLevel2.solve_analysis SimpleBeam.calculate_internal_forces
  rw [hre]
  have hfV : (fun x => ((BeamLevel2.mk L ⟨P, xp⟩ ⟨w, s, e⟩).sectionVM
      ((SimpleBeam.mk L [⟨P, xp⟩]).solve_reactions).1 x).1)
      = fun x => (((SimpleBeam.mk L [⟨P, xp⟩]).sectionVM
      ((SimpleBeam.mk L [⟨P, xp⟩]).solve_reactions).1 x).1) := by
    funext x; rw [hsec x]
  have hfM : (fun x => ((BeamLevel2.mk L ⟨P, xp⟩ ⟨w, s, e⟩).sectionVM
      ((SimpleBeam.mk L [⟨P, xp⟩]).solve_reactions).1 x).2)
      = fun x => (((SimpleBeam.mk L [⟨P, xp⟩]).sectionVM
      ((SimpleBeam.mk L [⟨P, xp⟩]).solve_reactions).1 x).2) := by
    funext x; rw [hsec x]
  simp only [hfV, hfM]

/-- Witness for C6 at `L = 10`, point load `50` at `5`, degenerate UDL
`w = 7` over `[3, 3]`. -/
theorem degenerate_udl_pure_point_witness :
    (BeamLevel2.mk 10 ⟨50, 5⟩ ⟨7, 3, 3⟩).reactions
      = (SimpleBeam.mk 10 [⟨50, 5⟩]).solve_reactions ∧
    (BeamLevel2.mk 10 ⟨50, 5⟩ ⟨7, 3, 3⟩).sectionVM
      ((SimpleBeam.mk 10 [⟨50, 5⟩]).solve_reactions).1 4
      = (SimpleBeam.mk 10 [⟨50, 5⟩]).sectionVM
        ((SimpleBeam.mk 10 [⟨50, 5⟩]).solve_reactions).1 4 := by
  have h := degenerate_udl_pure_point 10 50 5 7 3 3 (by norm_num) (Or.inr rfl)
  exact ⟨h.1, h.2.1 4⟩

/-! ### C7 -/

/-- `x = 5` is not among the samples of `np.linspace(0, 10, 500)`:
`10 * i / 499 = 5` would force `2 * i = 499`. -/
lemma linspace10_ne_five (i : ℕ) : linspace500 10 i ≠ 5 := by
  unfold linspace500
  intro h
  rw [div_eq_iff (by norm_num : (499:ℚ) ≠ 0)] at h
  have h2 : (10 * i : ℚ) = 2495 := by push_cast at h ⊢; linarith
  have h3 : (10 * i : ℕ) = 2495 := by exact_mod_cast h2
  omega

/-- A linspace sample of the span `[0, 10]` lies right of the midpoint
exactly when its index is at least `250`. -/
lemma linspace10_gt_five (i : ℕ) : linspace500 10 i > 5 ↔ 250 ≤ i := by
  unfold linspace500
  rw [gt_iff_lt, lt_div_iff (by norm_num : (0:ℚ) < 499)]
  constructor
  · intro h
    have h2 : (2495 : ℚ) < 10 * i := by push_cast at h ⊢; linarith
    have h3 : 2495 < 10 * i := by exact_mod_cast h2
    omega
  · intro h
    have h2 : (250 : ℚ) ≤ i := by exact_mod_cast h
    push_cast
    linarith

/-- **C7, counterexample**: on the problem `L=10, P=100, x=5`, the
sampled profile of `plot_answer` never attains a bending moment of
`250`, and none of its 500 sample positions equals `5`: the claim that
the maximum moment `250` is attained at `x = 5` fails on the
discretized profile (every sampled moment is strictly below `250`). -/
theorem single_point_example_profile_counterexample :
    (∀ i : Fin 500, plot_answer_M 100 5 50 (linspace500 10 i.1) < 250) ∧
    (∀ i : Fin 500, linspace500 10 i.1 ≠ 5) := by
  constructor
  · intro i
    unfold plot_answer_M
    split_ifs with h
    · linarith
    · have hne := linspace10_ne_five i.1
      have hle : linspace500 10 i.1 ≤ 5 := not_lt.mp h
      have hlt : linspace500 10 i.1 < 5 := lt_of_le_of_ne hle hne
      linarith
  · exact fun i => linspace10_ne_five i.1

/-- **C7, amended**: `solve_beam 10 100 5 = (50, 50)`; every profile
sample strictly left of `x = 5` carries shear `50` and every sample
strictly right of it carries `-50` (the drop across `x = 5`); the
method-of-sections moment function attains its maximum `250` exactly at
`x = 5` over the span, but `x = 5` is not a sample of
`np.linspace(0, 10, 500)`, and the sampled profile's maximum moment is
`124500 / 499 ≈ 249.499`, attained at the two samples adjacent to
`x = 5` (indices `249` and `250`). -/
theorem single_point_example_amended :
    solve_beam 10 100 5 = (50, 50) ∧
    (∀ i : Fin 500, linspace500 10 i.1 < 5 →
      plot_answer_V 100 5 50 (linspace500 10 i.1) = 50) ∧
    (∀ i : Fin 500, linspace500 10 i.1 > 5 →
      plot_answer_V 100 5 50 (linspace500 10 i.1) = -50) ∧
    plot_answer_M 100 5 50 5 = 250 ∧
    (∀ v : ℚ, 0 ≤ v → v ≤ 10 → plot_answer_M 100 5 50 v ≤ 250) ∧
    plot_answer_M 100 5 50 (linspace500 10 249) = 124500 / 499 ∧
    plot_answer_M 100 5 50 (linspace500 10 250) = 124500 / 499 ∧
    (∀ i : Fin 500, plot_answer_M 100 5 50 (linspace500 10 i.1) ≤ 124500 / 499) := by
  refine ⟨by norm_num [solve_beam], ?_, ?_, ?_, ?_, ?_, ?_, ?_⟩
  · intro i h
    unfold plot_answer_V
    rw [if_neg (not_lt.mpr h.le)]
  · intro i h
    unfold plot_answer_V
    rw [if_pos h]
    norm_num
  · unfold plot_answer_M
    rw [if_neg (lt_irrefl 5)]
    norm_num
  · intro v h0 h10
    unfold plot_answer_M
    split_ifs with h <;> linarith
  · have hlt : ¬ (linspace500 10 249 > 5) := by
      rw [linspace10_gt_five]
      omega
    unfold plot_answer_M
    rw [if_neg hlt]
    unfold linspace500
    norm_num
  · have hgt : linspace500 10 250 > 5 := by
      rw [linspace10_gt_five]
    unfold plot_answer_M
    rw [if_pos hgt]
    unfold linspace500
    norm_num
  · intro i
    have hi : i.1 ≤ 499 := Nat.lt_succ_iff.mp i.2
    by_cases hc : 250 ≤ i.1
    · have hgt : linspace500 10 i.1 > 5 := (linspace10_gt_five i.1).mpr hc
      unfold plot_answer_M
      rw [if_pos hgt]
      unfold linspace500
      have h2 : (250 : ℚ) ≤ i.1 := by exact_mod_cast hc
      push_cast
      linarith
    · have hle : i.1 ≤ 249 := by omega
      have hns : ¬ (linspace500 10 i.1 > 5) := by
        rw [linspace10_gt_five]
        omega
      unfold plot_answer_M
      rw [if_neg hns]
      unfold linspace500
      have h2 : (i.1 : ℚ) ≤ 249 := by exact_mod_cast hle
      push_cast
      linarith

/-- Witness for the amended C7: sample `100` (left of the load) carries
shear `50`, sample `400` (right of it) carries `-50`, and the moment at
`v = 3` respects the `250` bound. -/
theorem single_point_example_amended_witness :
    plot_answer_V 100 5 50 (linspace500 10 100) = 50 ∧
    plot_answer_V 100 5 50 (linspace500 10 400) = -50 ∧
    plot_answer_M 100 5 50 3 ≤ 250 := by
  have h := single_point_example_amended
  refine ⟨h.2.1 ⟨100, by norm_num⟩ ?_, h.2.2.1 ⟨400, by norm_num⟩ ?_,
    h.2.2.2.2.1 3 (by norm_num) (by norm_num)⟩
  · unfold linspace500
    norm_num
  · unfold linspace500
    norm_num

/-! ### C8 -/

/-- The `st.session_state.exam_data` dict of the Level-3 page:
`{"L": ..., "P": ..., "x": ..., "has_generated": ...}`. -/
structure ExamData where
  L : ℚ
  P : ℚ
  x : ℚ
  has_generated : Bool
deriving DecidableEq

/-- The initial exam data installed when the session state is empty:
`L=10.0, P=100.0, x=5.0, has_generated=False`. -/
def initial_exam_data : ExamData :=
  ⟨10, 100, 5, false⟩

/-- The new-problem button handler: the three `random.randint` draws
`new_L = randint(5, 20)`, `new_P = randint(10, 200)`,
`new_x = randint(1, new_L - 1)` are passed in as the naturals
`rL, rP, rx` (with the ranges of `randint` as hypotheses on the callers'
side), and the whole session dict is replaced:
`st.session_state.exam_data = {"L": float(new_L), "P": new_P * 1.0,
"x": new_x * 1.0, "has_generated": True}`. The previous state `old` is
not consulted. -/
def generate_exam (old : ExamData) (rL rP rx : ℕ) : ExamData :=
  ⟨(rL : ℚ), (rP : ℚ), (rx : ℚ), true⟩

/-- **C8**: every generated quiz problem is a single-point-load problem
with integer values satisfying `L ∈ [5,20]`, `P ∈ [10,200]`,
`x ∈ [1, L-1]` (so `0 < x < L` and the load is never at a support), and
regeneration replaces the prior problem as a whole: the result does not
depend on the previous session state. -/
theorem exam_generation_bounds (old1 old2 : ExamData) (rL rP rx : ℕ)
    (h1 : 5 ≤ rL) (h2 : rL ≤ 20) (h3 : 10 ≤ rP) (h4 : rP ≤ 200)
    (h5 : 1 ≤ rx) (h6 : rx ≤ rL - 1) :
    generate_exam old1 rL rP rx = generate_exam old2 rL rP rx ∧
    5 ≤ (generate_exam old1 rL rP rx).L ∧ (generate_exam old1 rL rP rx).L ≤ 20 ∧
    10 ≤ (generate_exam old1 rL rP rx).P ∧ (generate_exam old1 rL rP rx).P ≤ 200 ∧
    1 ≤ (generate_exam old1 rL rP rx).x ∧
    (generate_exam old1 rL rP rx).x ≤ (generate_exam old1 rL rP rx).L - 1 ∧
    0 < (generate_exam old1 rL rP rx).x ∧
    (generate_exam old1 rL rP rx).x < (generate_exam old1 rL rP rx).L ∧
    (generate_exam old1 rL rP rx).has_generated = true ∧
    (∃ nL nP nx : ℕ, (generate_exam old1 rL rP rx).L = (nL : ℚ) ∧
      (generate_exam old1 rL rP rx).P = (nP : ℚ) ∧
      (generate_exam old1 rL rP rx).x = (nx : ℚ)) := by
  simp only [generate_exam]
  have hx1 : rx + 1 ≤ rL := by omega
  have hx1q : (rx : ℚ) + 1 ≤ (rL : ℚ) := by exact_mod_cast hx1
  have hxq : (1 : ℚ) ≤ (rx : ℚ) := by exact_mod_cast h5
  refine ⟨by trivial, by exact_mod_cast h1, by exact_mod_cast h2, by exact_mod_cast h3,
    by exact_mod_cast h4, hxq, by linarith, by linarith, by linarith, by trivial,
    ⟨rL, rP, rx, rfl, rfl, rfl⟩⟩

/-- Witness for C8: draws `rL = 10, rP = 100, rx = 5` from a session
whose prior problem differs; the two regenerated states agree and the
bounds hold. -/
theorem exam_generation_bounds_witness :
    generate_exam initial_exam_data 10 100 5
      = generate_exam (ExamData.mk 7 20 3 true) 10 100 5 ∧
    0 < (generate_exam initial_exam_data 10 100 5).x ∧
    (generate_exam initial_exam_data 10 100 5).x
      < (generate_exam initial_exam_data 10 100 5).L := by
  have h := exam_generation_bounds initial_exam_data (ExamData.mk 7 20 3 true)
    10 100 5 (by norm_num) (by norm_num) (by norm_num) (by norm_num)
    (by norm_num) (by norm_num)
  exact ⟨h.1, h.2.2.2.2.2.2.2.1, h.2.2.2.2.2.2.2.2.1⟩

/-! ### C9 -/

/-- `SimpleBeam.solve_reactions` as a state transformer on the beam
object: the Python body reads `self.length` and `self.loads` but never
assigns to any attribute of `self`, so the post-state is the pre-state. -/
def SimpleBeam.solve_reactionsRun (b : SimpleBeam) : (ℚ × ℚ) × SimpleBeam :=
  (b.solve_reactions, b)

/-- `SimpleBeam.calculate_internal_forces` as a state transformer: its
body only builds the local lists, never writing to `self`. -/
def SimpleBeam.calculate_internal_forcesRun (b : SimpleBeam) (ra rb : ℚ) :
    (List ℚ × List ℚ × List ℚ) × SimpleBeam :=
  (b.calculate_internal_forces ra rb, b)

/-- `BeamLevel2.solve_analysis` as a state transformer: its body only
assigns local variables, never writing to `self`. -/
def BeamLevel2.solve_analysisRun (b : BeamLevel2) :
    (ℚ × ℚ × List ℚ × List ℚ × List ℚ) × BeamLevel2 :=
  (b.solve_analysis, b)

/-- **C9**: the solving operations are pure with respect to the beam:
after any solve the beam state (span and load set) is exactly what it
was before the call, and two solves on equal inputs return equal
outputs. -/
theorem solvers_pure :
    (∀ b : SimpleBeam, (b.solve_reactionsRun).2 = b) ∧
    (∀ (b : SimpleBeam) (ra rb : ℚ), (b.calculate_internal_forcesRun ra rb).2 = b) ∧
    (∀ b2 : BeamLevel2, (b2.solve_analysisRun).2 = b2) ∧
    (∀ b b' : SimpleBeam, b = b' → b.solve_reactionsRun = b'.solve_reactionsRun) ∧
    (∀ b2 b2' : BeamLevel2, b2 = b2' → b2.solve_analysisRun = b2'.solve_analysisRun) :=
  ⟨fun _ => rfl, fun _ _ _ => rfl, fun _ => rfl,
    fun _ _ h => by rw [h], fun _ _ h => by rw [h]⟩

/-- Witness for C9 on the beam `L = 10` with a `100 kN` load at `5`. -/
theorem solvers_pure_witness :
    ((SimpleBeam.mk 10 [⟨100, 5⟩]).solve_reactionsRun).2 = SimpleBeam.mk 10 [⟨100, 5⟩] ∧
    (SimpleBeam.mk 10 [⟨100, 5⟩]).solve_reactionsRun
      = (SimpleBeam.mk 10 [⟨100, 5⟩]).solve_reactionsRun := by
  exact ⟨solvers_pure.1 (SimpleBeam.mk 10 [⟨100, 5⟩]),
    solvers_pure.2.2.2.1 (SimpleBeam.mk 10 [⟨100, 5⟩]) (SimpleBeam.mk 10 [⟨100, 5⟩]) rfl⟩

/-! ### C10 -/

/-- **C10**: a `BeamLevel2` holds exactly one point-load record and one
UDL record (this is its shape), and `set_loads` overwrites both: after
two calls only the most recent arguments remain, so the earlier loads
are discarded — the double-set beam is equal, as a state, to the
single-set beam, and `solve_analysis` agrees on the two. -/
theorem set_loads_overwrites (b : BeamLevel2)
    (P1 x1 w1 s1 e1 P2 x2 w2 s2 e2 : ℚ) :
    (b.set_loads P1 x1 w1 s1 e1).set_loads P2 x2 w2 s2 e2
      = b.set_loads P2 x2 w2 s2 e2 ∧
    (b.set_loads P2 x2 w2 s2 e2).point_load = ⟨P2, x2⟩ ∧
    (b.set_loads P2 x2 w2 s2 e2).udl = ⟨w2, s2, e2⟩ ∧
    ((b.set_loads P1 x1 w1 s1 e1).set_loads P2 x2 w2 s2 e2).solve_analysis
      = (b.set_loads P2 x2 w2 s2 e2).solve_analysis :=
  ⟨rfl, rfl, rfl, rfl⟩
